import Mathlib

/-
Shallow embedding of the `override` library (src/__init__.py): a marker
wrapper (`override`), the validating metaclass (`OverridesMeta`), and the
metaclass factory (`create_custom_overrides_meta`), together with the parts
of the Python object model the library's behaviour depends on (class
attribute lookup, descriptor exposure on classes, slot assignment).
Machine-level details that the library never touches (bytecode, memory) are
not modelled; object identity is modelled by a numeric id carried on each
member object.
-/

namespace PyOverride

/-- Runtime types of the Python objects that can appear as class members in
this development: plain functions (`types.FunctionType`), bound methods
(`types.MethodType`), the `classmethod`, `staticmethod` and `property`
descriptor objects, and a catch-all for every other runtime type, tagged
with its type name and whether its instances are callable. -/
inductive PyType where
  | function
  | method
  | classmethod
  | staticmethod
  | prop
  | other (name : String) (callableInstances : Bool)
deriving DecidableEq, Repr

/-- Python `callable(x)` for an object of the given runtime type, as of
Python 3.7 (the library's target): functions and bound methods are callable;
`classmethod`, `staticmethod` and `property` descriptor objects are not. -/
def PyType.callable : PyType → Bool
  | .function => true
  | .method => true
  | .classmethod => false
  | .staticmethod => false
  | .prop => false
  | .other _ c => c

/-- `type(x).__name__` for the modelled runtime types. -/
def PyType.typeName : PyType → String
  | .function => "function"
  | .method => "method"
  | .classmethod => "classmethod"
  | .staticmethod => "staticmethod"
  | .prop => "property"
  | .other n _ => n

/-- A member object (the kind of value stored in a class body): its identity
(`id`, standing for the CPython object identity used by `is` and by the
default object hash) and its runtime type.  Descriptor objects
(`classmethod`/`staticmethod`) are taken to wrap plain functions, matching
the data model of the library (its docstring: "this callable, classmethod,
staticmethod, or property"). -/
structure Member where
  id : Nat
  ty : PyType
deriving DecidableEq, Repr

/-- Python's identity-derived default hash for functions, methods,
descriptor objects and properties (none of them overrides `__hash__`). -/
def memberHash (m : Member) : Nat := m.id

/-- Python's hash of a 1-tuple `(x,)` as a function of `hash(x)`: a fixed
deterministic mixing of the element hash (the exact constants of CPython's
tuple hash are irrelevant to every property proved here; only determinism
and dependence on the element hash alone matter). -/
def tupleHash1 (h : Nat) : Nat := 1000003 * h + 3527539

/-- The errors the modelled code can raise. -/
inductive PyErr where
  | valueError (msg : String)
  | overrideError (msg : String)
  | attributeError (msg : String)
  | typeError (msg : String)
deriving DecidableEq, Repr

/-- The marker wrapper class `override` (src lines 4-33): a single slot
`__func__` holding the wrapped member. -/
structure override where
  __func__ : Member
deriving DecidableEq, Repr

/-- `override.__new__` (src lines 22-27): reject the argument with
`ValueError` when it is neither callable nor an instance of `classmethod`,
`staticmethod` or `property`; otherwise store it in the `__func__` slot. -/
def overrideNew (func : Member) : Except PyErr override :=
  if !func.ty.callable
      && !(func.ty = .classmethod ∨ func.ty = .staticmethod ∨ func.ty = .prop) then
    .error (.valueError "value of func parameter must be callable")
  else
    .ok ⟨func⟩

/-- `override.__eq__` between two wrappers (src lines 29-30): identity
comparison `self.__func__ is other.__func__` of the wrapped members.  (When
the other operand is not an `override` the Python method returns
`NotImplemented`; only the wrapper/wrapper case is modelled, which is the
case every claim is about.) -/
def override.eq (a b : override) : Bool := a.__func__ == b.__func__

/-- `override.__hash__` (src lines 32-33): `hash((self.__func__,))`. -/
def override.hashVal (a : override) : Nat := tupleHash1 (memberHash a.__func__)

/-- Instance attribute assignment on an `override` wrapper.  `override`
declares `__slots__ = ("__func__",)` (src line 20) and defines no instance
`__setattr__`, so Python's default `object.__setattr__` applies: the name
`__func__` resolves to the slot's member descriptor — a read-write data
descriptor — and the assignment replaces the wrapped member; any other name
has no slot and no instance `__dict__` exists, so the assignment raises
`AttributeError`. -/
def override.setattrInstance (_w : override) (attr : String) (v : Member) :
    Except PyErr override :=
  if attr = "__func__" then .ok ⟨v⟩
  else .error (.attributeError ("\x27override\x27 object has no attribute \x27" ++ attr ++ "\x27"))

/-- A value stored in a class body: either a plain member object or an
`override` wrapper instance. -/
inductive Value where
  | plain (m : Member)
  | ov (w : override)
deriving DecidableEq, Repr

/-- `isinstance(value, override)`. -/
def Value.isOv : Value → Bool
  | .plain _ => false
  | .ov _ => true

/-- The runtime type of a stored value (`override` instances have the
runtime type of the `override` class, whose instances are not callable). -/
def Value.runtimeTy : Value → PyType
  | .plain m => m.ty
  | .ov _ => .other "override" false

/-- Descriptor exposure for `getattr` on a class: looking an attribute up on
a class invokes `__get__(None, cls)` on descriptors found in a class dict.
A `classmethod` exposes a bound method (`types.MethodType`); a
`staticmethod` exposes the wrapped function; a `property` accessed on the
class (not an instance) returns itself; plain functions return themselves
when the instance is `None`; bound methods and the other modelled types are
not descriptors and are returned unchanged. -/
def exposedType : PyType → PyType
  | .classmethod => .method
  | .staticmethod => .function
  | t => t

/-- What `getattr(cls, name)` returns for a stored value, at the level of
runtime types (the identity of a freshly created bound method is not
modelled; no property proved here depends on it). -/
def Value.exposed : Value → Value
  | .plain m => .plain { m with ty := exposedType m.ty }
  | v => v

/-- Lookup in a Python dict modelled as an insertion-ordered association
list. -/
def dictGet : List (String × Value) → String → Option Value
  | [], _ => none
  | (k, v) :: rest, key => if k = key then some v else dictGet rest key

/-- Update of a Python dict: replacing an existing key keeps its position,
a new key is appended (Python 3.7 dict semantics). -/
def dictSet : List (String × Value) → String → Value → List (String × Value)
  | [], key, v => [(key, v)]
  | (k, v') :: rest, key, v =>
    if k = key then (key, v) :: rest else (k, v') :: dictSet rest key v

/-- A class object: its `__name__`, its `__bases__` (immediate bases, in
declaration order) and its `__dict__` (insertion-ordered). -/
inductive PyClass where
  | mk (name : String) (bases : List PyClass) (dict : List (String × Value))

/-- `cls.__name__`. -/
def PyClass.name : PyClass → String
  | .mk n _ _ => n

/-- `cls.__bases__`. -/
def PyClass.bases : PyClass → List PyClass
  | .mk _ b _ => b

/-- `cls.__dict__`. -/
def PyClass.dict : PyClass → List (String × Value)
  | .mk _ _ d => d

mutual
/-- Attribute lookup along a class and its declared ancestry: the class's
own `__dict__` first, then its bases depth-first in declaration order.
(CPython uses the C3 method resolution order, which agrees with depth-first
search on every hierarchy appearing in this development; no claim depends
on diamond-shaped hierarchies inside a single base.) -/
def PyClass.attrRaw : PyClass → String → Option Value
  | .mk _ bases dict, n =>
    match dictGet dict n with
    | some v => some v
    | none => attrRawBases bases n

/-- Attribute lookup over a list of classes, first match wins. -/
def attrRawBases : List PyClass → String → Option Value
  | [], _ => none
  | b :: bs, n =>
    match PyClass.attrRaw b n with
    | some v => some v
    | none => attrRawBases bs n
end

/-- The attributes every class inherits from the root type `object`
(a representative finite model of `object`'s dict: slot wrappers such as
`object.__init__`, and builtin methods such as `object.__reduce__`).  Every
Python class has `object` on its MRO, so plain attribute lookup always
falls through to these. -/
def objectDict : List (String × Value) :=
  [ ("__init__", .plain ⟨1001, .other "wrapper_descriptor" true⟩)
  , ("__eq__", .plain ⟨1002, .other "wrapper_descriptor" true⟩)
  , ("__ne__", .plain ⟨1003, .other "wrapper_descriptor" true⟩)
  , ("__str__", .plain ⟨1004, .other "wrapper_descriptor" true⟩)
  , ("__repr__", .plain ⟨1005, .other "wrapper_descriptor" true⟩)
  , ("__hash__", .plain ⟨1006, .other "wrapper_descriptor" true⟩)
  , ("__getattribute__", .plain ⟨1007, .other "wrapper_descriptor" true⟩)
  , ("__delattr__", .plain ⟨1008, .other "wrapper_descriptor" true⟩)
  , ("__reduce__", .plain ⟨1009, .other "builtin_function_or_method" true⟩)
  , ("__dir__", .plain ⟨1010, .other "builtin_function_or_method" true⟩)
  , ("__sizeof__", .plain ⟨1011, .other "builtin_function_or_method" true⟩)
  , ("__format__", .plain ⟨1012, .other "builtin_function_or_method" true⟩) ]

/-- The names `objectDict` models (attribute names defined on `object`). -/
def objectAttrNames : List String := objectDict.map Prod.fst

/-- The root class `object`. -/
def objectClass : PyClass := .mk "object" [] objectDict

/-- Full attribute lookup as used by `hasattr`/`getattr` on a class: the
declared ancestry first, then the root type `object`, which terminates
every MRO. -/
def attrFull (c : PyClass) (n : String) : Option Value :=
  match PyClass.attrRaw c n with
  | some v => some v
  | none => dictGet objectDict n

/-- `hasattr(c, n)` for a class `c`. -/
def hasattrC (c : PyClass) (n : String) : Bool := (attrFull c n).isSome

/-- `getattr(c, n)` for a class `c`: full lookup followed by descriptor
exposure. -/
def getattrClass (c : PyClass) (n : String) : Option Value :=
  (attrFull c n).map Value.exposed

/-- The base scan of `OverridesMeta.__setattr__` (src lines 51-56): walk
`cls.__bases__` in order; at the first base `b` with `hasattr(b, name)`,
`getattr(b, name)` becomes the overridden member (`break`); the `for`'s
`else` (no base found) is the `none` case. -/
def findOverridden : List PyClass → String → Option Value
  | [], _ => none
  | b :: bs, n => if hasattrC b n then getattrClass b n else findOverridden bs n

/-- Kind classification of the new member (src lines 58-60): `function` if
the wrapped member is a `staticmethod`, else `method` if it is a
`classmethod`, else its runtime type as-is. -/
def classifyKind (t : PyType) : PyType :=
  if t = .staticmethod then .function
  else if t = .classmethod then .method
  else t

/-- The missing-base message `"no base of %s has attr %s" % (cls.__name__,
repr(name))` (src line 56); `repr` of an attribute name without quote
characters is the name in single quotes. -/
def noBaseMsg (clsName attrName : String) : String :=
  "no base of " ++ clsName ++ " has attr \x27" ++ attrName ++ "\x27"

/-- The kind-mismatch message `"attempt to override a %s object with a %s
object" % (type(overriden).__name__, type(value.__func__).__name__)`
(src lines 63-65). -/
def mismatchMsg (overriddenTyName newTyName : String) : String :=
  "attempt to override a " ++ overriddenTyName ++ " object with a " ++ newTyName ++ " object"

/-- The override-validation block that `OverridesMeta.__setattr__` runs on a
marker-wrapped value (src lines 50-66; the factory's `Meta.__setattr__`,
src lines 86-102, contains a textually identical copy of the same block):
find the overridden member on the first matching base (else
`OverrideError`), classify the new member's kind, compare it by exact type
identity (`type(overriden) is not kind`) against the overridden member's
runtime type (else `OverrideError`), and on success return the unwrapped
member `value.__func__` for installation. -/
def validateOverride (cls : PyClass) (name : String) (w : override) :
    Except PyErr Member :=
  match findOverridden cls.bases name with
  | none => .error (.overrideError (noBaseMsg cls.name name))
  | some overriden =>
    let kind := classifyKind w.__func__.ty
    if overriden.runtimeTy ≠ kind then
      .error (.overrideError
        (mismatchMsg overriden.runtimeTy.typeName w.__func__.ty.typeName))
    else
      .ok w.__func__

/-- `type.__setattr__(cls, name, value)`: install `value` under `name` in
the class dict, unmodified. -/
def typeSetattr (cls : PyClass) (name : String) (value : Value) : PyClass :=
  match cls with
  | .mk n bs d => .mk n bs (dictSet d name value)

/-- `OverridesMeta.__setattr__` (src lines 49-67): a marker-wrapped value is
validated and rebound to the bare wrapped member before the
`super().__setattr__(name, value)` call; any other value is passed through
to `super().__setattr__` unmodified. -/
def OverridesMeta.setattr (cls : PyClass) (name : String) (value : Value) :
    Except PyErr PyClass := do
  let value ← match value with
    | .ov w => (validateOverride cls name w).map Value.plain
    | v => .ok v
  .ok (typeSetattr cls name value)

/-- The implicit-`object` rule of class creation: `type.__new__` with an
empty bases tuple produces a class whose `__bases__` is `(object,)`. -/
def typeNewBases (bases : List PyClass) : List PyClass :=
  if bases.isEmpty then [objectClass] else bases

/-- `type.__new__(mcls, name, bases, classdict)`: the host's native class
construction (the parts the library can observe: name, bases with the
implicit `object`, and the class dict). -/
def typeNew (name : String) (bases : List PyClass) (classdict : List (String × Value)) :
    PyClass :=
  .mk name (typeNewBases bases) classdict

/-- The scanning loop of `OverridesMeta.__new__` (src lines 44-46): for each
`(key, value)` in the freshly built class's dict, in order, if the value is
an `override` instance, re-assign it via `setattr(cls, key, value)` — which
dispatches to `OverridesMeta.__setattr__` — threading the updated class;
the first failure aborts the loop and propagates.  (Each re-assignment only
replaces the value of the key being visited, so iterating the original
items is equivalent to iterating the live dict.) -/
def processOverrides : PyClass → List (String × Value) → Except PyErr PyClass
  | cls, [] => .ok cls
  | cls, (key, value) :: rest =>
    match value with
    | .ov w => do
      let cls' ← OverridesMeta.setattr cls key (.ov w)
      processOverrides cls' rest
    | _ => processOverrides cls rest

/-- `OverridesMeta.__new__` (src lines 42-47): build the raw class with
`type.__new__`, then run the scanning loop over its dict. -/
def OverridesMeta.new (name : String) (bases : List PyClass)
    (classdict : List (String × Value)) : Except PyErr PyClass :=
  let cls := typeNew name bases classdict
  processOverrides cls cls.dict

/-- The call `metaclass.__setattr__(name, value)` in the factory-produced
hook (src line 103), with `metaclass = type`: the unbound slot wrapper
`type.__setattr__` is invoked without the class object, so its `self`
argument is the attribute name — a `str`, not a type — and the wrapper
raises `TypeError` before assigning anything.  (Compare the default hook's
correct bound call `super().__setattr__(name, value)`, src line 67.) -/
def typeSetattrMissingSelf (name : String) (value : Value) : Except PyErr PyClass :=
  let _ := name
  let _ := value
  .error (.typeError
    "descriptor \x27__setattr__\x27 requires a \x27type\x27 object but received a \x27str\x27")

/-- `Meta.__setattr__` of the hook produced by
`create_custom_overrides_meta(type)` (src lines 85-103): the validation
block is the same as the default hook's, but the final installation is
`return metaclass.__setattr__(name, value)` — the class object is omitted,
so the call raises `TypeError` on every path that reaches it (marked values
after successful validation, and all unmarked values). -/
def customMeta.setattr (cls : PyClass) (name : String) (value : Value) :
    Except PyErr PyClass := do
  let value ← match value with
    | .ov w => (validateOverride cls name w).map Value.plain
    | v => .ok v
  typeSetattrMissingSelf name value

/-- The scanning loop of the factory-produced `Meta.__new__` (src lines
80-82), identical to the default hook's loop except that re-assignment
dispatches to `Meta.__setattr__`. -/
def customMeta.processOverrides : PyClass → List (String × Value) → Except PyErr PyClass
  | cls, [] => .ok cls
  | cls, (key, value) :: rest =>
    match value with
    | .ov w => do
      let cls' ← customMeta.setattr cls key (.ov w)
      customMeta.processOverrides cls' rest
    | _ => customMeta.processOverrides cls rest

/-- `Meta.__new__` of the hook produced by `create_custom_overrides_meta`
with base metaclass `type` (src lines 78-83): `metaclass.__new__` builds the
raw class, then the scanning loop runs. -/
def customMeta.new (name : String) (bases : List PyClass)
    (classdict : List (String × Value)) : Except PyErr PyClass :=
  let cls := typeNew name bases classdict
  customMeta.processOverrides cls cls.dict

/-- The bound method stored as `A.b` in the module's own test (src line 141,
`A.b = method(A.b, type)`). -/
def memB : Member := ⟨11, .method⟩

/-- The plain function `A.c` of the module's own test. -/
def memC : Member := ⟨12, .function⟩

/-- The classmethod `A.d` of the module's own test. -/
def memD : Member := ⟨13, .classmethod⟩

/-- The property `A.e` of the module's own test. -/
def memE : Member := ⟨14, .prop⟩

/-- The base class `A` of the module's own test (src lines 118-141): a bound
method `b`, a plain function `c`, a classmethod `d`, a property `e`. -/
def classA : PyClass :=
  .mk "A" [objectClass]
    [ ("b", .plain memB), ("c", .plain memC), ("d", .plain memD), ("e", .plain memE) ]

/-- A fresh plain function used as an overriding member in witnesses. -/
def newFn : Member := ⟨21, .function⟩

/-- A fresh classmethod descriptor used as an overriding member. -/
def newCm : Member := ⟨22, .classmethod⟩

/-- A base class exposing `f` as a plain function (for the two-bases
first-match-wins scenario). -/
def classB1 : PyClass := .mk "B1" [objectClass] [("f", .plain ⟨31, .function⟩)]

/-- A base class exposing `f` as a property (for the two-bases
first-match-wins scenario). -/
def classB2 : PyClass := .mk "B2" [objectClass] [("f", .plain ⟨32, .prop⟩)]

/-- A `findOverridden` hit forces the bases list to be non-empty, so the
implicit-`object` normalisation of `type.__new__` leaves it unchanged. -/
theorem typeNewBases_of_find_some {bases : List PyClass} {n : String} {v : Value}
    (h : findOverridden bases n = some v) : typeNewBases bases = bases := by
  cases bases with
  | nil => simp [findOverridden] at h
  | cons b bs => simp [typeNewBases]

/-- Construction through `OverridesMeta` of a class whose body is a single
marker-wrapped entry reduces to validating that entry and, on success,
installing the unwrapped member via `type.__setattr__`. -/
theorem new_single_entry (cname : String) (bases : List PyClass)
    (name : String) (w : override) :
    OverridesMeta.new cname bases [(name, .ov w)]
      = (validateOverride (typeNew cname bases [(name, .ov w)]) name w).map
          (fun m => typeSetattr (typeNew cname bases [(name, .ov w)]) name (.plain m)) := by
  simp only [OverridesMeta.new, typeNew, PyClass.dict]
  cases h : validateOverride (PyClass.mk cname (typeNewBases bases) [(name, Value.ov w)]) name w with
  | error e =>
    simp only [processOverrides, OverridesMeta.setattr, h, Except.map]
    rfl
  | ok m =>
    simp only [processOverrides, OverridesMeta.setattr, h, Except.map]
    rfl

/-- A name among the keys of a dict is found by `dictGet`. -/
theorem dictGet_isSome_of_mem_fst {l : List (String × Value)} {n : String}
    (h : n ∈ l.map Prod.fst) : (dictGet l n).isSome = true := by
  induction l with
  | nil => simp at h
  | cons kv rest ih =>
    obtain ⟨k, v⟩ := kv
    rw [List.map_cons, List.mem_cons] at h
    by_cases hk : k = n
    · simp [dictGet, hk]
    · rcases h with h | h
      · exact absurd h.symm hk
      · simpa [dictGet, hk] using ih h

/-- A successful class-level `getattr` implies `hasattr`. -/
theorem hasattrC_of_getattr_some {c : PyClass} {n : String} {v : Value}
    (h : getattrClass c n = some v) : hasattrC c n = true := by
  unfold getattrClass at h
  unfold hasattrC
  cases ha : attrFull c n with
  | none => rw [ha] at h; simp at h
  | some x => simp [ha]

/-- Once the base scan has found the overridden member, validation is
exactly the kind comparison: mismatch error on differing runtime types,
the unwrapped member on agreement. -/
theorem validateOverride_of_find_some {cls : PyClass} {name : String}
    {w : override} {v : Value}
    (h : findOverridden cls.bases name = some v) :
    validateOverride cls name w
      = if v.runtimeTy ≠ classifyKind w.__func__.ty then
          .error (.overrideError (mismatchMsg v.runtimeTy.typeName w.__func__.ty.typeName))
        else .ok w.__func__ := by
  unfold validateOverride
  rw [h]

/-- The scanning loop is the identity on a class whose body holds no marker
wrapper. -/
theorem processOverrides_no_ov (cls : PyClass) {l : List (String × Value)}
    (h : ∀ kv ∈ l, kv.2.isOv = false) : processOverrides cls l = .ok cls := by
  induction l with
  | nil => rfl
  | cons kv rest ih =>
    obtain ⟨k, v⟩ := kv
    cases v with
    | plain m => exact ih (fun kv hkv => h kv (List.mem_cons_of_mem _ hkv))
    | ov w =>
      have := h (k, .ov w) (List.mem_cons_self _ _)
      simp [Value.isOv] at this

/-- Claim C9: constructing the marker wrapper succeeds exactly when the
argument is callable or is a `classmethod`, `staticmethod` or `property`
descriptor, producing the wrapper around exactly that member; for every
other argument it raises `ValueError` and no wrapper is produced. -/
theorem C9_override_new_contract (m : Member) :
    ((m.ty.callable = true ∨ m.ty = .classmethod ∨ m.ty = .staticmethod ∨ m.ty = .prop) →
      overrideNew m = .ok ⟨m⟩)
    ∧ (¬ (m.ty.callable = true ∨ m.ty = .classmethod ∨ m.ty = .staticmethod ∨ m.ty = .prop) →
      overrideNew m = .error (.valueError "value of func parameter must be callable")) := by
  constructor <;> intro h
  · unfold overrideNew
    rcases h with h | h | h | h
    · simp [h]
    · simp [h, PyType.callable]
    · simp [h, PyType.callable]
    · simp [h, PyType.callable]
  · push_neg at h
    obtain ⟨h1, h2, h3, h4⟩ := h
    have h1' : m.ty.callable = false := by simpa using h1
    unfold overrideNew
    simp [h1', h2, h3, h4]

/-- Witness for C9: a plain function is accepted, an `int` (not callable,
not a descriptor form) is rejected with `ValueError`. -/
theorem C9_override_new_contract_witness :
    overrideNew ⟨21, .function⟩ = .ok ⟨⟨21, .function⟩⟩
    ∧ overrideNew ⟨40, .other "int" false⟩
        = .error (.valueError "value of func parameter must be callable") :=
  ⟨(C9_override_new_contract ⟨21, .function⟩).1 (Or.inl rfl),
   (C9_override_new_contract ⟨40, .other "int" false⟩).2 (by decide)⟩

/-- Claim C8: wrapping the same member twice yields wrappers that compare
equal and hash identically; in general two wrappers compare equal exactly
when they wrap the identical member object. -/
theorem C8_eq_hash_by_identity :
    (∀ (m : Member) (w₁ w₂ : override),
        overrideNew m = .ok w₁ → overrideNew m = .ok w₂ →
        override.eq w₁ w₂ = true ∧ override.hashVal w₁ = override.hashVal w₂)
    ∧ (∀ w₁ w₂ : override, override.eq w₁ w₂ = true ↔ w₁.__func__ = w₂.__func__) := by
  constructor
  · intro m w₁ w₂ h₁ h₂
    unfold overrideNew at h₁ h₂
    split at h₁
    · exact absurd h₁ (by simp)
    · split at h₂
      · exact absurd h₂ (by simp)
      · cases h₁; cases h₂
        constructor
        · simp [override.eq]
        · rfl
  · intro w₁ w₂
    simp [override.eq]

/-- Witness for C8: wrapping the test function member twice gives equal,
identically hashing wrappers, and two wrappers around distinct members are
not equal. -/
theorem C8_eq_hash_witness :
    (override.eq ⟨⟨21, .function⟩⟩ ⟨⟨21, .function⟩⟩ = true
      ∧ override.hashVal ⟨⟨21, .function⟩⟩ = override.hashVal ⟨⟨21, .function⟩⟩)
    ∧ ¬ override.eq ⟨⟨21, .function⟩⟩ ⟨⟨22, .classmethod⟩⟩ = true :=
  ⟨C8_eq_hash_by_identity.1 ⟨21, .function⟩ ⟨⟨21, .function⟩⟩ ⟨⟨21, .function⟩⟩ rfl rfl,
   fun h => by
    have := (C8_eq_hash_by_identity.2 ⟨⟨21, .function⟩⟩ ⟨⟨22, .classmethod⟩⟩).mp h
    simp at this⟩

/-- Claim C7 counterexample: assignment to the `__func__` slot of a wrapper
succeeds and replaces the wrapped member (the slot created by
`__slots__ = ("__func__",)` is a read-write data descriptor and `override`
installs no read-only guard), so the wrapper is mutable and `__func__` is
not read-only, refuting the claim at a concrete input. -/
theorem C7_counterexample :
    override.setattrInstance ⟨⟨21, .function⟩⟩ "__func__" ⟨22, .classmethod⟩
      = .ok ⟨⟨22, .classmethod⟩⟩
    ∧ (⟨22, .classmethod⟩ : Member) ≠ (⟨21, .function⟩ : Member) := by
  exact ⟨rfl, by decide⟩

/-- Claim C7 as amended: wrapper instances have no instance dictionary, so
assignment to any attribute other than `__func__` fails with
`AttributeError`; the `__func__` slot itself, however, is writable —
assignment to it succeeds and replaces the wrapped member. -/
theorem C7_slot_assignment (w : override) (attr : String) (v : Member) :
    (attr = "__func__" → override.setattrInstance w attr v = .ok ⟨v⟩)
    ∧ (attr ≠ "__func__" →
        override.setattrInstance w attr v
          = .error (.attributeError
              ("\x27override\x27 object has no attribute \x27" ++ attr ++ "\x27"))) := by
  constructor <;> intro h <;> simp [override.setattrInstance, h]

/-- Witness for C7 (amended): assigning the attribute `x` on a wrapper
raises `AttributeError`; assigning `__func__` replaces the member. -/
theorem C7_slot_assignment_witness :
    override.setattrInstance ⟨⟨21, .function⟩⟩ "x" ⟨22, .classmethod⟩
      = .error (.attributeError
          ("\x27override\x27 object has no attribute \x27" ++ "x" ++ "\x27"))
    ∧ override.setattrInstance ⟨⟨21, .function⟩⟩ "__func__" ⟨22, .classmethod⟩
      = .ok ⟨⟨22, .classmethod⟩⟩ :=
  ⟨(C7_slot_assignment ⟨⟨21, .function⟩⟩ "x" ⟨22, .classmethod⟩).2 (by decide),
   (C7_slot_assignment ⟨⟨21, .function⟩⟩ "__func__" ⟨22, .classmethod⟩).1 rfl⟩

/-- Claim C2 counterexample: overriding the plain function `c` of `classA`
with a classmethod-wrapped member classifies the new member's Kind as
`method` (a class-bound method), yet the raised error's message names the
wrapped member's raw runtime type `classmethod`, not the classified kind
`method` — so the message does not name "both kinds" as the claim states. -/
theorem C2_counterexample :
    OverridesMeta.new "X" [classA] [("c", .ov ⟨newCm⟩)]
      = .error (.overrideError (mismatchMsg "function" "classmethod"))
    ∧ classifyKind newCm.ty = .method
    ∧ mismatchMsg "function" "classmethod" ≠ mismatchMsg "function" PyType.method.typeName := by
  refine ⟨rfl, rfl, ?_⟩
  decide

/-- Claim C2 as amended: when the classified Kind of the marked member
differs by exact type identity from the runtime type of the overridden
member resolved on the first matching base, construction through the hook
fails with a kind-mismatch `OverrideError` — whose message names the
overridden member's runtime type and the wrapped member's raw runtime type
(not its classified Kind) — and no class value is produced (the class is
never bound). -/
theorem C2_kind_mismatch_aborts (cname : String) (bases : List PyClass)
    (name : String) (w : override) (v : Value)
    (hfind : findOverridden bases name = some v)
    (hne : v.runtimeTy ≠ classifyKind w.__func__.ty) :
    OverridesMeta.new cname bases [(name, .ov w)]
      = .error (.overrideError (mismatchMsg v.runtimeTy.typeName w.__func__.ty.typeName)) := by
  have hb := typeNewBases_of_find_some hfind
  rw [new_single_entry]
  have hfind' : findOverridden (typeNew cname bases [(name, Value.ov w)]).bases name = some v := by
    show findOverridden (typeNewBases bases) name = some v
    rw [hb]; exact hfind
  rw [validateOverride_of_find_some hfind', if_pos hne]
  rfl

/-- Witness for C2 (amended): overriding the bound method `b` of `classA`
with a plain function fails with the method/function mismatch error (the
module's own test case `B`). -/
theorem C2_kind_mismatch_aborts_witness :
    OverridesMeta.new "B" [classA] [("b", .ov ⟨newFn⟩)]
      = .error (.overrideError (mismatchMsg "method" "function")) :=
  C2_kind_mismatch_aborts "B" [classA] "b" ⟨newFn⟩ (.plain memB) rfl (by decide)

/-- Claim C3: when a base exposes `name` with the same runtime type as the
classified Kind of the marked member, constructing the subclass through the
hook succeeds and the class attribute under `name` is the bare unwrapped
member — the marker wrapper does not persist on the class. -/
theorem C3_same_kind_installs_unwrapped (cname : String) (base : PyClass)
    (name : String) (w : override) (v : Value)
    (hfind : findOverridden [base] name = some v)
    (hkind : v.runtimeTy = classifyKind w.__func__.ty) :
    ∃ cls, OverridesMeta.new cname [base] [(name, .ov w)] = .ok cls
      ∧ dictGet cls.dict name = some (.plain w.__func__) := by
  rw [new_single_entry]
  have hfind' : findOverridden (typeNew cname [base] [(name, Value.ov w)]).bases name
      = some v := hfind
  rw [validateOverride_of_find_some hfind', if_neg (by simp [hkind])]
  refine ⟨_, rfl, ?_⟩
  simp [typeSetattr, typeNew, typeNewBases, PyClass.dict, dictSet, dictGet]

/-- Witness for C3: overriding the plain function `c` of `classA` with a
plain function succeeds and installs the bare function (the module's own
test case `C`). -/
theorem C3_same_kind_installs_unwrapped_witness :
    ∃ cls, OverridesMeta.new "C" [classA] [("c", .ov ⟨newFn⟩)] = .ok cls
      ∧ dictGet cls.dict "c" = some (.plain newFn) :=
  C3_same_kind_installs_unwrapped "C" classA "c" ⟨newFn⟩ (.plain memC) rfl rfl

/-- Claim C4: when no base (nor the implicit root `object`) exposes the
marked name, construction through the hook fails with the
missing-base-attribute `OverrideError` naming the class and the offending
name.  The conclusion does not depend on the wrapper `w`, showing the error
is raised before any kind comparison. -/
theorem C4_missing_base_aborts (cname : String) (bases : List PyClass)
    (name : String) (w : override)
    (hfind : findOverridden (typeNewBases bases) name = none) :
    OverridesMeta.new cname bases [(name, .ov w)]
      = .error (.overrideError (noBaseMsg cname name)) := by
  rw [new_single_entry]
  unfold validateOverride
  rw [show (typeNew cname bases [(name, Value.ov w)]).bases = typeNewBases bases from rfl,
    hfind]
  rfl

/-- Witness for C4: no base of `classA` (nor `object`) defines `zz`, so the
wrapped member aborts construction with the missing-base error. -/
theorem C4_missing_base_aborts_witness :
    OverridesMeta.new "G" [classA] [("zz", .ov ⟨newFn⟩)]
      = .error (.overrideError (noBaseMsg "G" "zz")) :=
  C4_missing_base_aborts "G" [classA] "zz" ⟨newFn⟩ rfl

/-- Claim C5: with two bases both exposing the marked name with different
runtime types, validation compares against the first base in declared
order; swapping the bases changes the comparison target, so a member
matching the first base's kind builds successfully under one order and
fails with the other base's kind named in the error under the swapped
order. -/
theorem C5_first_match_wins (cname dname name : String) (B1 B2 : PyClass)
    (w : override) (v1 v2 : Value)
    (h1 : getattrClass B1 name = some v1)
    (h2 : getattrClass B2 name = some v2)
    (hkind : classifyKind w.__func__.ty = v1.runtimeTy)
    (hne : v2.runtimeTy ≠ v1.runtimeTy) :
    findOverridden [B1, B2] name = some v1
    ∧ findOverridden [B2, B1] name = some v2
    ∧ (∃ cls, OverridesMeta.new cname [B1, B2] [(name, .ov w)] = .ok cls)
    ∧ OverridesMeta.new dname [B2, B1] [(name, .ov w)]
        = .error (.overrideError (mismatchMsg v2.runtimeTy.typeName w.__func__.ty.typeName)) := by
  have f12 : findOverridden [B1, B2] name = some v1 := by
    simp [findOverridden, hasattrC_of_getattr_some h1, h1]
  have f21 : findOverridden [B2, B1] name = some v2 := by
    simp [findOverridden, hasattrC_of_getattr_some h2, h2]
  refine ⟨f12, f21, ?_, ?_⟩
  · rw [new_single_entry]
    have hfind' : findOverridden (typeNew cname [B1, B2] [(name, Value.ov w)]).bases name
        = some v1 := f12
    rw [validateOverride_of_find_some hfind', if_neg (by simp [hkind])]
    exact ⟨_, rfl⟩
  · rw [new_single_entry]
    have hfind' : findOverridden (typeNew dname [B2, B1] [(name, Value.ov w)]).bases name
        = some v2 := f21
    rw [validateOverride_of_find_some hfind', if_pos (by rw [hkind]; exact hne)]
    rfl

/-- Witness for C5: `classB1` exposes `f` as a function, `classB2` as a
property; a wrapped plain function builds under bases `(B1, B2)` and fails
with the property/function mismatch under bases `(B2, B1)`. -/
theorem C5_first_match_wins_witness :
    findOverridden [classB1, classB2] "f" = some (.plain ⟨31, .function⟩)
    ∧ findOverridden [classB2, classB1] "f" = some (.plain ⟨32, .prop⟩)
    ∧ (∃ cls, OverridesMeta.new "M1" [classB1, classB2] [("f", .ov ⟨newFn⟩)] = .ok cls)
    ∧ OverridesMeta.new "M2" [classB2, classB1] [("f", .ov ⟨newFn⟩)]
        = .error (.overrideError
            (mismatchMsg (Value.plain ⟨32, .prop⟩).runtimeTy.typeName newFn.ty.typeName)) :=
  C5_first_match_wins "M1" "M2" "f" classB1 classB2 ⟨newFn⟩
    (.plain ⟨31, .function⟩) (.plain ⟨32, .prop⟩) rfl rfl rfl (by decide)

/-- Claim C6: a class body with no marker-wrapped member builds through the
hook to exactly the class the host's native construction (`type.__new__`)
produces, and the assignment interceptor passes every non-wrapped value
through to `type.__setattr__` unmodified (also after finalization). -/
theorem C6_no_marker_is_native (cname : String) (bases : List PyClass)
    (classdict : List (String × Value))
    (h : ∀ kv ∈ classdict, kv.2.isOv = false) :
    OverridesMeta.new cname bases classdict = .ok (typeNew cname bases classdict)
    ∧ ∀ (cls : PyClass) (name : String) (m : Member),
        OverridesMeta.setattr cls name (.plain m) = .ok (typeSetattr cls name (.plain m)) := by
  constructor
  · exact processOverrides_no_ov (typeNew cname bases classdict) h
  · intro cls name m
    rfl

/-- Witness for C6: a one-function body is passed through untouched, and a
plain post-construction assignment on `classA` installs the value
unmodified. -/
theorem C6_no_marker_is_native_witness :
    OverridesMeta.new "P" [classA] [("x", .plain ⟨41, .function⟩)]
      = .ok (typeNew "P" [classA] [("x", .plain ⟨41, .function⟩)])
    ∧ OverridesMeta.setattr classA "x" (.plain ⟨41, .function⟩)
      = .ok (typeSetattr classA "x" (.plain ⟨41, .function⟩)) :=
  ⟨(C6_no_marker_is_native "P" [classA] [("x", .plain ⟨41, .function⟩)] (by decide)).1,
   (C6_no_marker_is_native "P" [classA] [("x", .plain ⟨41, .function⟩)] (by decide)).2
     classA "x" ⟨41, .function⟩⟩

/-- Claim C10: because the base scan uses full attribute lookup
(`hasattr`/`getattr`), a base satisfies it by merely inheriting the name;
for every name defined on the root type `object`, the scan resolves the
name on the very first base, so the missing-base error branch is
unreachable and validation proceeds to the kind comparison against that
inherited member (succeeding or raising only the kind-mismatch error). -/
theorem C10_object_attr_scan_never_missing (cls : PyClass) (name : String)
    (w : override)
    (hmem : name ∈ objectAttrNames) (hbases : cls.bases ≠ []) :
    ∃ b bs v, cls.bases = b :: bs
      ∧ findOverridden cls.bases name = some v
      ∧ getattrClass b name = some v
      ∧ (OverridesMeta.setattr cls name (.ov w)
            = .ok (typeSetattr cls name (.plain w.__func__))
         ∨ OverridesMeta.setattr cls name (.ov w)
            = .error (.overrideError
                (mismatchMsg v.runtimeTy.typeName w.__func__.ty.typeName))) := by
  cases hb : cls.bases with
  | nil => exact absurd hb hbases
  | cons b bs =>
    have hobj : (dictGet objectDict name).isSome = true :=
      dictGet_isSome_of_mem_fst (by simpa [objectAttrNames] using hmem)
    have hattr : (attrFull b name).isSome = true := by
      unfold attrFull
      cases PyClass.attrRaw b name <;> simp [hobj]
    obtain ⟨pre, hpre⟩ := Option.isSome_iff_exists.mp hattr
    have hhas : hasattrC b name = true := by unfold hasattrC; rw [hpre]; rfl
    have hget : getattrClass b name = some pre.exposed := by
      unfold getattrClass; rw [hpre]; rfl
    have hfind0 : findOverridden (b :: bs) name = some pre.exposed := by
      simp [findOverridden, hhas, hget]
    have hfind : findOverridden cls.bases name = some pre.exposed := by
      rw [hb]; exact hfind0
    refine ⟨b, bs, pre.exposed, rfl, hfind0, hget, ?_⟩
    by_cases hc : pre.exposed.runtimeTy ≠ classifyKind w.__func__.ty
    · right
      simp only [OverridesMeta.setattr, validateOverride_of_find_some hfind, if_pos hc,
        Except.map]
      rfl
    · left
      simp only [OverridesMeta.setattr, validateOverride_of_find_some hfind, if_neg hc,
        Except.map]
      rfl

/-- Witness for C10: marking `__init__` in a class over `classA` — whose own
dict lacks `__init__` — still resolves the name (inherited from `object`)
on the first base, and validation reaches the kind comparison. -/
theorem C10_object_attr_scan_never_missing_witness :
    ∃ b bs v, (PyClass.mk "Q" [classA] []).bases = b :: bs
      ∧ findOverridden (PyClass.mk "Q" [classA] []).bases "__init__" = some v
      ∧ getattrClass b "__init__" = some v
      ∧ (OverridesMeta.setattr (PyClass.mk "Q" [classA] []) "__init__" (.ov ⟨newFn⟩)
            = .ok (typeSetattr (PyClass.mk "Q" [classA] []) "__init__" (.plain newFn))
         ∨ OverridesMeta.setattr (PyClass.mk "Q" [classA] []) "__init__" (.ov ⟨newFn⟩)
            = .error (.overrideError
                (mismatchMsg v.runtimeTy.typeName newFn.ty.typeName))) :=
  C10_object_attr_scan_never_missing (.mk "Q" [classA] []) "__init__" ⟨newFn⟩
    (by decide) (by simp [PyClass.bases])

/-- Claim C1 (code bug): at a concrete class body holding one validly
overriding marked member, the default hook succeeds, but the hook produced
by `create_custom_overrides_meta(type)` raises `TypeError`: its
re-assignment calls `metaclass.__setattr__(name, value)` without the class
object (src line 103), unlike the default hook's bound
`super().__setattr__(name, value)` (src line 67).  The same`TypeError` also
hits every plain post-construction assignment through the produced hook. -/
theorem C1_factory_installation_raises_type_error :
    customMeta.new "C1c" [classA] [("c", .ov ⟨newFn⟩)]
      = .error (.typeError
          "descriptor \x27__setattr__\x27 requires a \x27type\x27 object but received a \x27str\x27")
    ∧ OverridesMeta.new "C1c" [classA] [("c", .ov ⟨newFn⟩)]
      = .ok (.mk "C1c" [classA] [("c", .plain newFn)])
    ∧ customMeta.setattr (.mk "C1c" [classA] [("c", .plain newFn)]) "x"
        (.plain ⟨41, .function⟩)
      = .error (.typeError
          "descriptor \x27__setattr__\x27 requires a \x27type\x27 object but received a \x27str\x27") :=
  ⟨rfl, rfl, rfl⟩

end PyOverride
